import Mathlib

/-! # Datagram endpoint (`src/src_lib_tests/kcp/udp.h`)

A shallow embedding of the `Udp` namespace of `udp.h`: the dual-stack address
value `SocketAddr`, the socket handle, the configuration array and the owning
endpoint class `Udp` with its copy/move/destroy operations.

Conventions of the embedding.

* The header is modelled for its non-Windows branch: `SocketType` is `int`
  and `INVALID_SOCKET` is `-1`.
* `SocketAddr` is a union that is inspected through a `sockaddr*` cast, so an
  address value is modelled as the bytes of the union (Linux layout,
  little-endian host): `sa_family` occupies bytes 0-1 of both members,
  the port bytes 2-3, the IPv4 address bytes 4-7 and the IPv6 address
  bytes 8-23.
* Every call that leaves the program (system calls, `operator new[]`,
  `operator delete[]`) is appended to a trace kept in `World`.  What the
  operating system answers is not fixed by the header; it is supplied by a
  record `Sys` of answer functions, and theorems quantify over it.
* A C++ exception leaves the object as mutated so far, so a throwing member
  function returns the raised exception next to the object and world it
  leaves behind.
-/

namespace Udp

/-! ## Platform constants and byte helpers -/

/-- Descriptor type of the non-Windows branch (`typedef int SocketType`). -/
abbrev SocketType := Int

/-- Sentinel of the non-Windows branch: `#define INVALID_SOCKET -1`. -/
def INVALID_SOCKET : SocketType := -1

/-- Address family constant of `<sys/socket.h>` on Linux. -/
def AF_INET : Nat := 2

/-- Address family constant of `<sys/socket.h>` on Linux. -/
def AF_INET6 : Nat := 10

/-- Value of `sizeof(sockaddr_in)` on Linux. -/
def sizeof_sockaddr_in : Nat := 16

/-- Value of `sizeof(sockaddr_in6)` on Linux. -/
def sizeof_sockaddr_in6 : Nat := 28

/-- Value of `sizeof(SocketAddr)`: the union is as large as its larger member. -/
def sizeof_SocketAddr : Nat := 28

/-- Value of `UINT16_MAX`. -/
def UINT16_MAX : Int := 65535

/-- Store the bytes `bs` into `m` starting at offset `off`. -/
def writeBytes : List Nat → Nat → List Nat → List Nat
  | m, _, [] => m
  | m, off, b :: bs => writeBytes (m.set off b) (off + 1) bs

/-- Load `n` bytes of `m` starting at offset `off`. -/
def readBytes (m : List Nat) (off n : Nat) : List Nat :=
  (m.drop off).take n

/-- The call `memset(m + off, 0, n)`. -/
def memsetZero (m : List Nat) (off n : Nat) : List Nat :=
  writeBytes m off (List.replicate n 0)

/-- Store a 16-bit value in host (little-endian) byte order. -/
def writeU16 (m : List Nat) (off : Nat) (v : Nat) : List Nat :=
  writeBytes m off [v % 256, v / 256 % 256]

/-- Load a 16-bit value in host (little-endian) byte order. -/
def readU16 (m : List Nat) (off : Nat) : Nat :=
  m.getD off 0 + 256 * m.getD (off + 1) 0

/-- Conversion of an `int` argument to the `uint16_t` parameter of `htons`. -/
def toU16 (x : Int) : Nat := (x % 65536).toNat

/-- Byte swap of a 16-bit value: `htons` on a little-endian host. -/
def htons (x : Nat) : Nat := (x % 256) * 256 + x / 256 % 256

/-- Byte swap of a 16-bit value: `ntohs` on a little-endian host. -/
def ntohs (x : Nat) : Nat := (x % 256) * 256 + x / 256 % 256

/-! ## `SocketAddr` -/

/-- The union `SocketAddr`, as its `sizeof_SocketAddr` bytes. -/
structure SocketAddr where
  bytes : List Nat
deriving DecidableEq, Repr

/-- A value-initialised address (`SocketAddr x{}`): all bytes zero. -/
def SocketAddr.zero : SocketAddr := ⟨List.replicate sizeof_SocketAddr 0⟩

/-- The field `((sockaddr *)this)->sa_family`. -/
def SocketAddr.sa_family (a : SocketAddr) : Nat := readU16 a.bytes 0

/-- Member `IsV4`. -/
def SocketAddr.IsV4 (a : SocketAddr) : Bool := a.sa_family == AF_INET

/-- Member `IsV6`. -/
def SocketAddr.IsV6 (a : SocketAddr) : Bool := a.sa_family == AF_INET6

/-- Member `CSize`. -/
def SocketAddr.CSize (a : SocketAddr) : Nat :=
  if a.IsV4 then sizeof_sockaddr_in
  else if a.IsV6 then sizeof_sockaddr_in6
  else sizeof_SocketAddr

/-- The call `inet_pton(af, ip, dst)` where `dst` is at offset `off` of `m`; `pton`
is the answer of the C library (`none`: the text is not a valid address, the
destination is left as it was).  The return value is ignored by the caller. -/
def inet_pton_at (pton : Nat → String → Option (List Nat)) (af : Nat) (ip : String)
    (m : List Nat) (off : Nat) : List Nat :=
  match pton af ip with
  | some bs => writeBytes m off bs
  | none => m

/-- Static member `FromAddress`. -/
def SocketAddr.FromAddress (pton : Nat → String → Option (List Nat))
    (v6 : Bool) (ip : String) (port : Int) : SocketAddr :=
  let out := SocketAddr.zero.bytes
  if v6 then
    let m := memsetZero out 0 sizeof_sockaddr_in6
    let m := writeU16 m 0 AF_INET6
    let m := inet_pton_at pton AF_INET6 ip m 8
    let m := writeU16 m 2 (htons (toU16 port))
    ⟨m⟩
  else
    let m := memsetZero out 0 sizeof_sockaddr_in
    let m := writeU16 m 0 AF_INET
    let m := inet_pton_at pton AF_INET ip m 4
    let m := writeU16 m 2 (htons (toU16 port))
    ⟨m⟩

/-- Member `IP`; `ntop` is the answer of `inet_ntop` (`none`: the call fails and
the buffer keeps its initial text). -/
def SocketAddr.IP (ntop : Nat → List Nat → Option String) (a : SocketAddr) : String :=
  if a.IsV6 then (ntop AF_INET6 (readBytes a.bytes 8 16)).getD "unknown"
  else if a.IsV4 then (ntop AF_INET (readBytes a.bytes 4 4)).getD "unknown"
  else "unknown"

/-- Member `Port`. -/
def SocketAddr.Port (a : SocketAddr) : Int :=
  if a.IsV6 then (ntohs (readU16 a.bytes 2) : Int)
  else if a.IsV4 then (ntohs (readU16 a.bytes 2) : Int)
  else -1

/-- Member `ToString`. -/
def SocketAddr.ToString (ntop : Nat → List Nat → Option String) (a : SocketAddr) : String :=
  a.IP ntop ++ ":" ++ toString a.Port

/-- Family constant selected by the flag `v6`. -/
def familyOf (v6 : Bool) : Nat := if v6 then AF_INET6 else AF_INET

/-- Length in bytes of a binary address of the family selected by `v6`. -/
def addrLenOf (v6 : Bool) : Nat := if v6 then 16 else 4

/-! ### A concrete C library for evaluation: dotted-quad IPv4 text -/

/-- Parse a run of decimal digits separated by dots into numbers. -/
def parseQuad : List Char → Nat → Bool → List Nat → Option (List Nat)
  | [], acc, seen, out => if seen then some (out ++ [acc]) else none
  | c :: cs, acc, seen, out =>
    if c = '.' then
      if seen then parseQuad cs 0 false (out ++ [acc]) else none
    else if c.isDigit then parseQuad cs (acc * 10 + (c.toNat - 48)) true out
    else none

/-- A text-to-binary conversion that accepts dotted-quad IPv4 text. -/
def simPton (af : Nat) (ip : String) : Option (List Nat) :=
  if af = AF_INET then
    match parseQuad ip.toList 0 false [] with
    | some [a, b, c, d] =>
      if a < 256 ∧ b < 256 ∧ c < 256 ∧ d < 256 then some [a, b, c, d] else none
    | _ => none
  else none

/-- A binary-to-text conversion that renders IPv4 addresses as dotted quads. -/
def simNtop (af : Nat) (bs : List Nat) : Option String :=
  if af = AF_INET then
    match bs with
    | [a, b, c, d] =>
      some (toString a ++ "." ++ toString b ++ "." ++ toString c ++ "." ++ toString d)
    | _ => none
  else none


/-! ## The world outside the object -/

/-- A block obtained from `new char[n]`: its address, its capacity and the bytes stored
at its start so far (what lies behind them is indeterminate). -/
structure Block where
  addr : Nat
  size : Nat
  data : List Nat
deriving DecidableEq, Repr

/-- Struct `timeval` of `<sys/time.h>`: seconds and microseconds. -/
structure timeval where
  tv_sec : Int
  tv_usec : Int
deriving DecidableEq, Repr

/-- Socket level constant of `<sys/socket.h>` on Linux. -/
def SOL_SOCKET : Nat := 1

/-- Socket option constant of `<sys/socket.h>` on Linux. -/
def SO_RCVTIMEO : Nat := 20

/-- Socket option constant of `<sys/socket.h>` on Linux. -/
def SO_SNDTIMEO : Nat := 21

/-- A call that leaves the program, with its arguments and, where the caller looks at
it, its answer. -/
inductive Call where
  | socket (domain : Nat) (ret : SocketType)
  | bind (fd : SocketType) (addr : SocketAddr) (len : Nat) (ret : Int)
  | connect (fd : SocketType) (addr : SocketAddr) (len : Nat) (ret : Int)
  | setsockopt (fd : SocketType) (level : Nat) (optname : Nat) (t : timeval) (ret : Int)
  | close (fd : SocketType)
  | opNew (n : Nat) (p : Nat)
  | opDelete (p : Nat)
  | recvfrom (fd : SocketType) (p : Nat) (cap : Int) (ret : Int)
deriving DecidableEq, Repr

/-- State outside the object: the calls issued so far, oldest first, and the live heap
blocks. -/
structure World where
  trace : List Call := []
  heap : List Block := []
deriving DecidableEq, Repr

/-- Answers of the operating system and of the allocator.  Each answer may depend on
everything that happened before. -/
structure Sys where
  /-- Descriptor returned by `socket(domain, SOCK_DGRAM, 0)`; `-1` on failure. -/
  socket : World → Nat → SocketType
  /-- Return value of `bind(fd, addr, len)`. -/
  bind : World → SocketType → SocketAddr → Nat → Int
  /-- Return value of `connect(fd, addr, len)`. -/
  connect : World → SocketType → SocketAddr → Nat → Int
  /-- Return value of `setsockopt(fd, level, optname, &t, sizeof(t))` for a `timeval`
  option; `0` when the kernel accepts the value, `-1` when it refuses it. -/
  setsockopt : World → SocketType → Nat → Nat → timeval → Int
  /-- Text of `strerror(errno)`. -/
  strerror : World → String
  /-- Address returned by a successful `new char[n]`. -/
  alloc : World → Nat → Nat
  /-- Answer of `inet_pton`. -/
  inet_pton : Nat → String → Option (List Nat)
  /-- Answer of `inet_ntop`. -/
  inet_ntop : Nat → List Nat → Option String
  /-- Answer of `recvfrom(fd, buf, cap, MSG_WAITALL, from, &len)`: the return value, the
  payload and the sender address. -/
  recvfrom : World → SocketType → Int × List Nat × List Nat

/-- The null pointer. -/
def nullptr : Nat := 0

/-- Addresses of the live heap blocks. -/
def World.live (w : World) : List Nat := w.heap.map (fun b => b.addr)

/-- The live block at address `p`, if any. -/
def World.load (w : World) (p : Nat) : Option Block :=
  w.heap.find? (fun b => b.addr == p)

/-- Store `bs` at the start of the block at address `p`. -/
def World.store (w : World) (p : Nat) (bs : List Nat) : World :=
  { w with heap := w.heap.map (fun b =>
      if b.addr == p then { b with data := bs ++ b.data.drop bs.length } else b) }

/-- The expression `new char[n]` with `n` of type `ssize_t`: a negative length converts to
a size that no allocation can satisfy and the expression throws (`none`). -/
def opNew (sys : Sys) (w : World) (n : Int) : Option (Nat × World) :=
  if n < 0 then none
  else
    let p := sys.alloc w n.toNat
    some (p, { trace := w.trace ++ [Call.opNew n.toNat p],
               heap := { addr := p, size := n.toNat, data := [] } :: w.heap })

/-- The statement `delete[] p`; deleting the null pointer does nothing. -/
def opDelete (w : World) (p : Nat) : World :=
  if p = nullptr then w
  else { trace := w.trace ++ [Call.opDelete p],
         heap := w.heap.filter (fun b => !(b.addr == p)) }

/-- Number of `close(fd)` calls issued so far. -/
def World.closes (w : World) (fd : SocketType) : Nat := w.trace.count (Call.close fd)

/-- Number of `delete[] p` calls issued so far. -/
def World.frees (w : World) (p : Nat) : Nat := w.trace.count (Call.opDelete p)

/-- The `close` calls issued so far. -/
def World.closeCalls (w : World) : List Call :=
  w.trace.filter (fun c => match c with | Call.close _ => true | _ => false)

/-! ## Handles, options, modes -/

/-- Struct `SocketHandle`; both members have the initialiser `{}`. -/
structure SocketHandle where
  socket : SocketType := 0
  is_ip_v6 : Bool := false
deriving DecidableEq, Repr

/-- Free function `UdpSocket`. -/
def UdpSocket (sys : Sys) (w : World) (v6 : Bool) : SocketHandle × World :=
  if v6 then
    let fd := sys.socket w AF_INET6
    ({ socket := fd, is_ip_v6 := true }, { w with trace := w.trace ++ [Call.socket AF_INET6 fd] })
  else
    let fd := sys.socket w AF_INET
    ({ socket := fd, is_ip_v6 := false }, { w with trace := w.trace ++ [Call.socket AF_INET fd] })

/-- Free function `UdpBind`. -/
def UdpBind (sys : Sys) (w : World) (s : SocketHandle) (addr : SocketAddr) : Int × World :=
  let ret := sys.bind w s.socket addr addr.CSize
  (ret, { w with trace := w.trace ++ [Call.bind s.socket addr addr.CSize ret] })

/-- Free function `UdpConn`. -/
def UdpConn (sys : Sys) (w : World) (s : SocketHandle) (addr : SocketAddr) : Int × World :=
  let ret := sys.connect w s.socket addr addr.CSize
  (ret, { w with trace := w.trace ++ [Call.connect s.socket addr addr.CSize ret] })

/-- Free function `UdpSetTimeout`: the whole timeout goes into `tv_usec`, `tv_sec` stays
zero, and the return value of `setsockopt` is handed back. -/
def UdpSetTimeout (sys : Sys) (w : World) (s : SocketHandle) (is_recv : Bool) (us : Int) :
    Int × World :=
  let t : timeval := { tv_sec := 0, tv_usec := us }
  if is_recv then
    let ret := sys.setsockopt w s.socket SOL_SOCKET SO_RCVTIMEO t
    (ret, { w with trace := w.trace ++ [Call.setsockopt s.socket SOL_SOCKET SO_RCVTIMEO t ret] })
  else
    let ret := sys.setsockopt w s.socket SOL_SOCKET SO_SNDTIMEO t
    (ret, { w with trace := w.trace ++ [Call.setsockopt s.socket SOL_SOCKET SO_SNDTIMEO t ret] })

/-- Effect of one call on the value of the `timeval` option `optname` of descriptor `fd`:
a `setsockopt` on that option that the kernel accepted (returned 0) replaces it. -/
def timeoutStep (fd : SocketType) (optname : Nat) (acc : Option timeval) (c : Call) :
    Option timeval :=
  match c with
  | Call.setsockopt fd2 level opt t ret =>
    if fd2 = fd ∧ level = SOL_SOCKET ∧ opt = optname ∧ ret = 0 then some t else acc
  | _ => acc

/-- The value of the `timeval` option `optname` in force on descriptor `fd` after the calls
`tr`: the one of the last accepted `setsockopt` on it, `none` when there was none. -/
def timeoutIn (tr : List Call) (fd : SocketType) (optname : Nat) : Option timeval :=
  tr.foldl (timeoutStep fd optname) none

/-- The value of the `timeval` option `optname` in force on descriptor `fd`. -/
def World.timeout (w : World) (fd : SocketType) (optname : Nat) : Option timeval :=
  timeoutIn w.trace fd optname

/-- Enumeration `UdpConfig`.  The last enumerator of the source, `kMax`, is the number of
options and the length of the array `conf_`; it is the constant `kMax` below. -/
inductive UdpConfig where
  | kUseIpV6
  | kBuffSize
  | kSendTimeOut
  | kRecvTimeOut
deriving DecidableEq, Repr

/-- The cast `(int)k`. -/
def UdpConfig.toNat : UdpConfig → Nat
  | .kUseIpV6 => 0
  | .kBuffSize => 1
  | .kSendTimeOut => 2
  | .kRecvTimeOut => 3

/-- The enumerator `UdpConfig::kMax` as an integer. -/
def kMax : Nat := 4

/-- Enumeration `WorkMode`. -/
inductive WorkMode where
  | kClient
  | kServer
deriving DecidableEq, Repr

/-- Exceptions that leave the member functions. -/
inductive Exn where
  | UdpException (what : String)
  | bad_array_new_length
deriving DecidableEq, Repr

end Udp

/-! ## Class `Udp` -/

/-- Data members of class `Udp` with their default member initialisers (`{}` for all of
them; `WorkMode{}` is the enumerator with value zero). -/
structure Udp where
  socket_ : Udp.SocketHandle := {}
  inited_ : Bool := false
  conf_ : List Int := List.replicate Udp.kMax 0
  buf_len_ : Int := 0
  buf_ : Nat := Udp.nullptr
  recv_addr_ : Udp.SocketAddr := Udp.SocketAddr.zero
  mode_ : Udp.WorkMode := Udp.WorkMode.kClient
  ip_ : String := ""
  port_ : Int := 0
  init_addr_ : Udp.SocketAddr := Udp.SocketAddr.zero
deriving DecidableEq, Repr

namespace Udp

/-- What a member function that may throw leaves behind: the exception, if one was
raised, the object and the world. -/
structure Ret where
  exn : Option Exn
  obj : Udp
  world : World
deriving DecidableEq, Repr

/-- Member `IsInited`. -/
def IsInited (u : Udp) : Bool := u.inited_

/-- Member `GetInitAddr`. -/
def GetInitAddr (u : Udp) : SocketAddr := u.init_addr_

/-- Member `GetConf`: a stored zero selects the default of the caller. -/
def GetConf (u : Udp) (k : UdpConfig) (default_value : Int := 0) : Int :=
  if u.conf_.getD k.toNat 0 = 0 then default_value
  else u.conf_.getD k.toNat 0

/-- Member `Config`: an unconditional store into `conf_`. -/
def Config (u : Udp) (k : UdpConfig) (value : Int) : Udp :=
  { u with conf_ := u.conf_.set k.toNat value }

/-- Member `Address`. -/
def Address (u : Udp) (ip : String) (port : Int) : Udp :=
  { u with ip_ := ip, port_ := port }

/-- Member `Close`; the return value of `close` is discarded. -/
def Close (u : Udp) (w : World) : Udp × World :=
  if u.socket_.socket = INVALID_SOCKET then (u, w)
  else
    ({ u with socket_ := { u.socket_ with socket := INVALID_SOCKET } },
     { w with trace := w.trace ++ [Call.close u.socket_.socket] })

/-- Destructor `~Udp`: what it leaves of the world. -/
def dtor (u : Udp) (w : World) : World :=
  if !u.inited_ then w
  else (Close u (opDelete w u.buf_)).2

/-- Member `MoveFrom`: the pair of `*this` and `from` after the call, for two distinct
objects.  The moved-from `std::string` is left empty. -/
def MoveFrom (self src : Udp) : Udp × Udp :=
  let self := { self with socket_ := src.socket_ }
  let self := { self with inited_ := src.inited_ }
  let self := { self with conf_ := src.conf_ }
  let self := { self with buf_len_ := src.buf_len_ }
  let self := { self with buf_ := src.buf_ }
  let self := { self with recv_addr_ := src.recv_addr_ }
  let self := { self with mode_ := src.mode_ }
  let self := { self with ip_ := src.ip_ }
  let src := { src with ip_ := "" }
  let self := { self with port_ := src.port_ }
  let self := { self with init_addr_ := src.init_addr_ }
  let src := { src with buf_ := nullptr }
  let src := { src with buf_len_ := 0 }
  let src := { src with inited_ := false }
  (self, src)

/-- Move constructor `Udp(Udp &&input)`: the new object and `input` after the call. -/
def moveCtor (input : Udp) : Udp × Udp := MoveFrom {} input

/-- Move assignment `operator=(Udp &&input)`. -/
def moveAssign (self input : Udp) : Udp × Udp := MoveFrom self input

/-- Member `CloneTo`: `obj` is the destination `to` after the call. -/
def CloneTo (sys : Sys) (self : Udp) (to_ : Udp) (w : World) : Ret :=
  let to_ := { to_ with socket_ := self.socket_ }
  let to_ := { to_ with inited_ := self.inited_ }
  let to_ := { to_ with conf_ := self.conf_ }
  let rest := fun (to_ : Udp) (w : World) =>
    let to_ := { to_ with recv_addr_ := SocketAddr.zero }
    let to_ := { to_ with mode_ := self.mode_ }
    let to_ := { to_ with ip_ := self.ip_ }
    let to_ := { to_ with port_ := self.port_ }
    let to_ := { to_ with init_addr_ := self.init_addr_ }
    ({ exn := none, obj := to_, world := w } : Ret)
  if self.inited_ then
    let to_ := { to_ with buf_len_ := self.buf_len_ }
    match opNew sys w self.buf_len_ with
    | none => { exn := some Exn.bad_array_new_length, obj := to_, world := w }
    | some (p, w) => rest { to_ with buf_ := p } w
  else rest to_ w

/-- Copy constructor `Udp(const Udp &from)`. -/
def copyCtor (sys : Sys) (src : Udp) (w : World) : Ret := CloneTo sys src {} w

/-- Copy assignment `operator=(const Udp &from)`. -/
def copyAssign (sys : Sys) (self src : Udp) (w : World) : Ret := CloneTo sys src self w

/-- Member `Clone`: the local object is filled by `CloneTo` and returned; when `CloneTo`
throws, the local object is destroyed while the exception propagates. -/
def Clone (sys : Sys) (self : Udp) (w : World) : Ret :=
  let r := CloneTo sys self {} w
  match r.exn with
  | none => r
  | some e => { exn := some e, obj := r.obj, world := dtor r.obj r.world }

/-- Private member `Init`. -/
def Init (sys : Sys) (u : Udp) (w : World) : Ret :=
  if u.inited_ then { exn := some (Exn.UdpException "already Bind"), obj := u, world := w }
  else
    let u := { u with inited_ := true }
    let (h, w) := UdpSocket sys w (GetConf u UdpConfig.kUseIpV6 0 != 0)
    let u := { u with socket_ := h }
    let u := { u with buf_len_ := GetConf u UdpConfig.kBuffSize UINT16_MAX }
    match opNew sys w u.buf_len_ with
    | none => { exn := some Exn.bad_array_new_length, obj := u, world := w }
    | some (p, w) =>
      let u := { u with buf_ := p }
      let u := { u with init_addr_ :=
        SocketAddr.FromAddress sys.inet_pton u.socket_.is_ip_v6 u.ip_ u.port_ }
      { exn := none, obj := u, world := w }

/-- Member `Bind`. -/
def Bind (sys : Sys) (u : Udp) (w : World) : Ret :=
  let r := Init sys u w
  match r.exn with
  | some e => { exn := some e, obj := r.obj, world := r.world }
  | none =>
    let u := { r.obj with mode_ := WorkMode.kServer }
    let (ret, w) := UdpBind sys r.world u.socket_ u.init_addr_
    if ret ≠ 0 then
      { exn := some (Exn.UdpException
          ("UdpBind fail " ++ toString ret ++ " ;reason maybe: " ++ sys.strerror w)),
        obj := u, world := w }
    else
      let w :=
        (UdpSetTimeout sys w u.socket_ true (GetConf u UdpConfig.kRecvTimeOut (1000 * 100))).2
      let w :=
        (UdpSetTimeout sys w u.socket_ false (GetConf u UdpConfig.kSendTimeOut (1000 * 3000))).2
      { exn := none, obj := u, world := w }

/-- Member `Conn`. -/
def Conn (sys : Sys) (u : Udp) (w : World) : Ret :=
  let r := Init sys u w
  match r.exn with
  | some e => { exn := some e, obj := r.obj, world := r.world }
  | none =>
    let u := { r.obj with mode_ := WorkMode.kClient }
    let (ret, w) := UdpConn sys r.world u.socket_ u.init_addr_
    if ret ≠ 0 then
      { exn := some (Exn.UdpException
          ("UdpConn fail " ++ toString ret ++ " ; reason maybe: " ++ sys.strerror w)),
        obj := u, world := w }
    else
      let w :=
        (UdpSetTimeout sys w u.socket_ true (GetConf u UdpConfig.kRecvTimeOut (1000 * 3000))).2
      let w :=
        (UdpSetTimeout sys w u.socket_ false (GetConf u UdpConfig.kSendTimeOut (1000 * 3000))).2
      { exn := none, obj := u, world := w }

/-- Member `GetBuf`: scratch address, buffer pointer and buffer length. -/
def GetBuf (u : Udp) : SocketAddr × Nat × Int := (u.recv_addr_, u.buf_, u.buf_len_)

/-- Member `Recv`: the return value, the object and the world after the call.  On
success the kernel stores at most `buf_len_` payload bytes at `buf_` and at most
`CSize()` bytes of the sender address into `recv_addr_`; on failure it stores nothing. -/
def Recv (sys : Sys) (u : Udp) (w : World) : Int × Udp × World :=
  let socklen := u.recv_addr_.CSize
  let (len, payload, sender) := sys.recvfrom w u.socket_.socket
  let w := { w with trace := w.trace ++ [Call.recvfrom u.socket_.socket u.buf_ u.buf_len_ len] }
  if len < 0 then (len, u, w)
  else
    (len,
     { u with recv_addr_ := ⟨writeBytes u.recv_addr_.bytes 0 (sender.take socklen)⟩ },
     w.store u.buf_ (payload.take u.buf_len_.toNat))

/-! ## A concrete operating system for evaluation -/

/-- Largest element of a list of addresses. -/
def maxAddr : List Nat → Nat
  | [] => 0
  | x :: xs => max x (maxAddr xs)

/-- Number of `socket` calls issued so far. -/
def socketCalls (w : World) : Nat :=
  (w.trace.filter (fun c => match c with | Call.socket _ _ => true | _ => false)).length

/-- An operating system that follows Linux: descriptors are handed out from 3 upwards,
`bind` and `connect` return 0, a `timeval` option is accepted when
`0 ≤ tv_usec < 1000000` and refused otherwise (`EDOM`), the allocator returns an address
above every live block, and nothing is ever received. -/
def simSys : Sys where
  socket := fun w _ => 3 + (socketCalls w : Int)
  bind := fun _ _ _ _ => 0
  connect := fun _ _ _ _ => 0
  setsockopt := fun _ _ _ _ t => if 0 ≤ t.tv_usec ∧ t.tv_usec < 1000000 then 0 else -1
  strerror := fun _ => "Success"
  alloc := fun w _ => maxAddr w.live + 1
  inet_pton := simPton
  inet_ntop := simNtop
  recvfrom := fun _ _ => (-1, [], [])

/-- An operating system like `simSys` on which a datagram with payload `ping` from
`127.0.0.1:9000` is waiting. -/
def pingSys : Sys :=
  { simSys with
    recvfrom := fun _ _ =>
      (4, [112, 105, 110, 103], (SocketAddr.FromAddress simPton false "127.0.0.1" 9000).bytes) }

/-! ## Sample runs -/

/-- An endpoint as default-constructed and then given `Address("127.0.0.1", 9000)`. -/
def sampleEndpoint : Udp := Address {} "127.0.0.1" 9000

/-- The run `Udp().Address("127.0.0.1", 9000).Bind()` on `simSys` from the empty world. -/
def boundServer : Ret := Bind simSys sampleEndpoint {}

/-- The run `Udp().Address("127.0.0.1", 9000).Conn()` on `simSys` from the empty world. -/
def connectedClient : Ret := Conn simSys sampleEndpoint {}

/-- The run `c = e.Clone()` where `e` is the endpoint of `boundServer`. -/
def clonedServer : Ret := Clone simSys boundServer.obj boundServer.world

end Udp

namespace Udp

/-! ## Address round trip -/

theorem toU16_ofNat (n : Nat) (hn : n ≤ 65535) : toU16 (n : Int) = n := by
  unfold toU16
  omega

theorem swap16_low (lo hi : Nat) (hhi : hi < 256) : (lo * 256 + hi) % 256 = hi := by
  omega

theorem swap16_high (lo hi : Nat) (hlo : lo < 256) (hhi : hi < 256) :
    (lo * 256 + hi) / 256 % 256 = lo := by
  omega

theorem ntohs_htons (n : Nat) (hn : n ≤ 65535) :
    ntohs (htons n % 256 + 256 * (htons n / 256 % 256)) = n := by
  have hhi : n / 256 < 256 := by omega
  have hlo : n % 256 < 256 := Nat.mod_lt _ (by decide)
  have hm : n / 256 % 256 = n / 256 := Nat.mod_eq_of_lt hhi
  have h1 : htons n % 256 = n / 256 := by
    unfold htons
    rw [hm]
    exact swap16_low _ _ hhi
  have h2 : htons n / 256 % 256 = n % 256 := by
    unfold htons
    rw [hm]
    exact swap16_high _ _ hlo hhi
  have h3 : n / 256 + 256 * (n % 256) = n % 256 * 256 + n / 256 := by omega
  rw [h1, h2]
  unfold ntohs
  rw [h3, swap16_low _ _ hhi, swap16_high _ _ hlo hhi]
  omega

theorem ntohs_htons_toU16 (port : Int) (hlo : 0 ≤ port) (hhi : port ≤ 65535) :
    ((ntohs (htons (toU16 port) % 256 + 256 * (htons (toU16 port) / 256 % 256)) : Nat) : Int)
      = port := by
  obtain ⟨n, rfl⟩ := Int.eq_ofNat_of_zero_le hlo
  have hn : n ≤ 65535 := by omega
  rw [toU16_ofNat n hn, ntohs_htons n hn]

theorem FromAddress_bytes_v4 (pton : Nat → String → Option (List Nat)) (ip : String) (port : Int)
    (a b c d : Nat) (hvalid : pton AF_INET ip = some [a, b, c, d]) :
    (SocketAddr.FromAddress pton false ip port).bytes =
      [2, 0, htons (toU16 port) % 256, htons (toU16 port) / 256 % 256, a, b, c, d,
       0,0,0,0,0,0,0,0,0,0,0,0,0,0,0,0,0,0,0,0] := by
  simp [SocketAddr.FromAddress, inet_pton_at, hvalid, memsetZero, writeU16, writeBytes,
    SocketAddr.zero, sizeof_SocketAddr, sizeof_sockaddr_in, List.replicate]
  simp [AF_INET]

theorem FromAddress_bytes_v6 (pton : Nat → String → Option (List Nat)) (ip : String) (port : Int)
    (a0 a1 a2 a3 a4 a5 a6 a7 a8 a9 a10 a11 a12 a13 a14 a15 : Nat)
    (hvalid : pton AF_INET6 ip = some [a0, a1, a2, a3, a4, a5, a6, a7, a8, a9, a10, a11, a12, a13, a14, a15]) :
    (SocketAddr.FromAddress pton true ip port).bytes =
      [10, 0, htons (toU16 port) % 256, htons (toU16 port) / 256 % 256, 0, 0, 0, 0,
       a0, a1, a2, a3, a4, a5, a6, a7, a8, a9, a10, a11, a12, a13, a14, a15, 0, 0, 0, 0] := by
  simp [SocketAddr.FromAddress, inet_pton_at, hvalid, memsetZero, writeU16, writeBytes,
    SocketAddr.zero, sizeof_SocketAddr, sizeof_sockaddr_in6, List.replicate]
  simp [AF_INET6]

/-- C7: an address built by `FromAddress` from a valid text of the requested family and a
port in 0..65535 reports the requested family, the size of that family's address
structure and the port, and `ToString` is the numeric rendering of the binary address
followed by a colon and the decimal port. -/
theorem FromAddress_roundtrip (pton : Nat → String → Option (List Nat)) (ntop : Nat → List Nat → Option String)
    (v6 : Bool) (ip : String) (port : Int) (bs : List Nat) (txt : String)
    (hlo : 0 ≤ port) (hhi : port ≤ 65535)
    (hvalid : pton (familyOf v6) ip = some bs) (hlen : bs.length = addrLenOf v6)
    (hrender : ntop (familyOf v6) bs = some txt) :
    (SocketAddr.FromAddress pton v6 ip port).IsV6 = v6 ∧
    (SocketAddr.FromAddress pton v6 ip port).IsV4 = !v6 ∧
    (SocketAddr.FromAddress pton v6 ip port).CSize
      = (if v6 then sizeof_sockaddr_in6 else sizeof_sockaddr_in) ∧
    (SocketAddr.FromAddress pton v6 ip port).Port = port ∧
    (SocketAddr.FromAddress pton v6 ip port).ToString ntop = txt ++ ":" ++ toString port := by
  have hp := ntohs_htons_toU16 port hlo hhi
  cases v6
  · simp only [familyOf, addrLenOf, Bool.false_eq_true, if_false] at hvalid hlen hrender
    match bs, hlen with
    | [a, b, c, d], _ =>
      have hb := FromAddress_bytes_v4 pton ip port a b c d hvalid
      have h6 : (SocketAddr.FromAddress pton false ip port).IsV6 = false := by
        simp [SocketAddr.IsV6, SocketAddr.sa_family, readU16, hb, AF_INET6]
      have h4 : (SocketAddr.FromAddress pton false ip port).IsV4 = true := by
        simp [SocketAddr.IsV4, SocketAddr.sa_family, readU16, hb, AF_INET]
      have hP : (SocketAddr.FromAddress pton false ip port).Port = port := by
        simp only [SocketAddr.Port, h6, h4, hb, readU16]
        simpa using hp
      have hI : (SocketAddr.FromAddress pton false ip port).IP ntop = txt := by
        simp [SocketAddr.IP, h6, h4, hb, readBytes, hrender]
      refine ⟨h6, h4, ?_, hP, ?_⟩
      · simp [SocketAddr.CSize, h4]
      · simp [SocketAddr.ToString, hP, hI]
  · simp only [familyOf, addrLenOf, if_true] at hvalid hlen hrender
    match bs, hlen with
    | [a0, a1, a2, a3, a4, a5, a6, a7, a8, a9, a10, a11, a12, a13, a14, a15], _ =>
      have hb := FromAddress_bytes_v6 pton ip port a0 a1 a2 a3 a4 a5 a6 a7 a8 a9 a10 a11 a12 a13 a14 a15 hvalid
      have h6 : (SocketAddr.FromAddress pton true ip port).IsV6 = true := by
        simp [SocketAddr.IsV6, SocketAddr.sa_family, readU16, hb, AF_INET6]
      have h4 : (SocketAddr.FromAddress pton true ip port).IsV4 = false := by
        simp [SocketAddr.IsV4, SocketAddr.sa_family, readU16, hb, AF_INET]
      have hP : (SocketAddr.FromAddress pton true ip port).Port = port := by
        simp only [SocketAddr.Port, h6, hb, readU16]
        simpa using hp
      have hI : (SocketAddr.FromAddress pton true ip port).IP ntop = txt := by
        simp [SocketAddr.IP, h6, hb, readBytes, hrender]
      refine ⟨h6, h4, ?_, hP, ?_⟩
      · simp [SocketAddr.CSize, h4, h6]
      · simp [SocketAddr.ToString, hP, hI]

theorem FromAddress_roundtrip_witness :
    (SocketAddr.FromAddress simPton false "127.0.0.1" 9000).IsV6 = false ∧
    (SocketAddr.FromAddress simPton false "127.0.0.1" 9000).IsV4 = !false ∧
    (SocketAddr.FromAddress simPton false "127.0.0.1" 9000).CSize
      = (if false then sizeof_sockaddr_in6 else sizeof_sockaddr_in) ∧
    (SocketAddr.FromAddress simPton false "127.0.0.1" 9000).Port = 9000 ∧
    (SocketAddr.FromAddress simPton false "127.0.0.1" 9000).ToString simNtop = "127.0.0.1" ++ ":" ++ toString (9000 : Int) :=
  FromAddress_roundtrip simPton simNtop false "127.0.0.1" 9000 [127, 0, 0, 1] "127.0.0.1" (by decide) (by decide)
    (by decide) (by decide) (by decide)

/-! ## Move, close and destruction -/

/-- C1: after move construction from `e` the source reports uninitialised with a null
buffer of length 0, destroying it leaves the world (trace and heap) untouched, and the
new object carries the values `e` had before the move. -/
theorem moveCtor_transfers (e : Udp) (w : World) :
    IsInited (moveCtor e).2 = false ∧
    (moveCtor e).2.buf_ = nullptr ∧
    (moveCtor e).2.buf_len_ = 0 ∧
    dtor (moveCtor e).2 w = w ∧
    (moveCtor e).1.socket_ = e.socket_ ∧
    (moveCtor e).1.inited_ = e.inited_ ∧
    (moveCtor e).1.conf_ = e.conf_ ∧
    (moveCtor e).1.buf_ = e.buf_ ∧
    (moveCtor e).1.buf_len_ = e.buf_len_ ∧
    (moveCtor e).1.recv_addr_ = e.recv_addr_ ∧
    (moveCtor e).1.mode_ = e.mode_ ∧
    (moveCtor e).1.port_ = e.port_ ∧
    (moveCtor e).1.init_addr_ = e.init_addr_ ∧
    (moveCtor e).1 = e := by
  refine ⟨rfl, rfl, rfl, ?_, rfl, rfl, rfl, rfl, rfl, rfl, rfl, rfl, rfl, rfl⟩
  simp [dtor, moveCtor, MoveFrom]

theorem Close_socket (u : Udp) (w : World) :
    (Close u w).1.socket_.socket = INVALID_SOCKET := by
  unfold Close
  split
  · assumption
  · rfl

theorem Close_of_invalid (u : Udp) (w : World) (h : u.socket_.socket = INVALID_SOCKET) :
    Close u w = (u, w) := by
  simp [Close, h]

theorem closeCalls_opDelete (w : World) (p : Nat) :
    (opDelete w p).closeCalls = w.closeCalls := by
  unfold opDelete World.closeCalls
  split
  · rfl
  · simp [List.filter_append]

/-- C5: a second `Close` changes neither the object nor the world; the two calls together
append one `close` of the descriptor to the trace when the handle was not the sentinel
and nothing when it was; destruction after `Close` issues no `close`; and after `Close`
the handle is the sentinel. -/
theorem Close_idempotent (u : Udp) (w : World) :
    Close (Close u w).1 (Close u w).2 = Close u w ∧
    (Close (Close u w).1 (Close u w).2).2.trace
      = w.trace ++
          (if u.socket_.socket = INVALID_SOCKET then [] else [Call.close u.socket_.socket]) ∧
    (Close (Close u w).1 (Close u w).2).2.trace.length ≤ w.trace.length + 1 ∧
    (dtor (Close u w).1 (Close u w).2).closeCalls = (Close u w).2.closeCalls ∧
    (Close u w).1.socket_.socket = INVALID_SOCKET := by
  have h2 : Close (Close u w).1 (Close u w).2 = Close u w :=
    Close_of_invalid _ _ (Close_socket u w)
  have h3 : (Close u w).2.trace
      = w.trace ++
          (if u.socket_.socket = INVALID_SOCKET then [] else [Call.close u.socket_.socket]) := by
    unfold Close
    split
    · simp
    · rfl
  refine ⟨h2, ?_, ?_, ?_, Close_socket u w⟩
  · rw [h2]
    exact h3
  · rw [h2, h3]
    split <;> simp
  · unfold dtor
    split
    · rfl
    · rw [Close_of_invalid _ _ (Close_socket u w)]
      exact closeCalls_opDelete _ _

/-! ## One-shot initialisation -/

theorem Init_of_inited (sys : Sys) (u : Udp) (w : World) (h : u.inited_ = true) :
    Init sys u w = { exn := some (Exn.UdpException "already Bind"), obj := u, world := w } := by
  simp [Init, h]

/-- C4: on an endpoint whose initialised flag is set, `Bind` and `Conn` raise the
exception of the guard in `Init` and leave the object and the world (trace of calls and
heap) exactly as they were. -/
theorem Bind_Conn_one_shot (sys : Sys) (u : Udp) (w : World) (h : u.inited_ = true) :
    Bind sys u w = { exn := some (Exn.UdpException "already Bind"), obj := u, world := w } ∧
    Conn sys u w = { exn := some (Exn.UdpException "already Bind"), obj := u, world := w } := by
  constructor
  · simp [Bind, Init_of_inited sys u w h]
  · simp [Conn, Init_of_inited sys u w h]

theorem Bind_Conn_one_shot_witness :
    boundServer.obj.inited_ = true ∧
    Bind simSys boundServer.obj boundServer.world
      = { exn := some (Exn.UdpException "already Bind"),
          obj := boundServer.obj, world := boundServer.world } ∧
    Conn simSys boundServer.obj boundServer.world
      = { exn := some (Exn.UdpException "already Bind"),
          obj := boundServer.obj, world := boundServer.world } :=
  ⟨by decide, Bind_Conn_one_shot simSys boundServer.obj boundServer.world (by decide)⟩

theorem Init_sets_inited (sys : Sys) (u : Udp) (w : World) :
    (Init sys u w).obj.inited_ = true := by
  unfold Init
  split
  · assumption
  · simp only [UdpSocket]
    split <;> split <;> rfl

theorem Init_conf (sys : Sys) (u : Udp) (w : World) :
    (Init sys u w).obj.conf_ = u.conf_ := by
  unfold Init
  split
  · rfl
  · simp only [UdpSocket]
    split <;> split <;> rfl

/-- Whatever the operating system answers, `Bind` leaves the initialised flag set. -/
theorem Bind_sets_inited (sys : Sys) (u : Udp) (w : World) :
    (Bind sys u w).obj.inited_ = true := by
  have h := Init_sets_inited sys u w
  unfold Bind
  simp only [UdpBind]
  split
  · exact h
  · split <;> exact h

/-- Whatever the operating system answers, `Conn` leaves the initialised flag set. -/
theorem Conn_sets_inited (sys : Sys) (u : Udp) (w : World) :
    (Conn sys u w).obj.inited_ = true := by
  have h := Init_sets_inited sys u w
  unfold Conn
  simp only [UdpConn]
  split
  · exact h
  · split <;> exact h

theorem Bind_conf (sys : Sys) (u : Udp) (w : World) :
    (Bind sys u w).obj.conf_ = u.conf_ := by
  have h := Init_conf sys u w
  unfold Bind
  simp only [UdpBind]
  split
  · exact h
  · split <;> exact h

theorem Conn_conf (sys : Sys) (u : Udp) (w : World) :
    (Conn sys u w).obj.conf_ = u.conf_ := by
  have h := Init_conf sys u w
  unfold Conn
  simp only [UdpConn]
  split
  · exact h
  · split <;> exact h

theorem GetConf_of_unset (u : Udp) (k : UdpConfig) (d : Int)
    (h : u.conf_.getD k.toNat 0 = 0) : GetConf u k d = d := by
  unfold GetConf
  rw [if_pos h]

/-- Shape of a `Bind` that returns normally. -/
theorem Bind_ok (sys : Sys) (u : Udp) (w : World) (h : (Bind sys u w).exn = none) :
    Bind sys u w =
      { exn := none,
        obj := { (Init sys u w).obj with mode_ := WorkMode.kServer },
        world :=
          (UdpSetTimeout sys
            (UdpSetTimeout sys
              (UdpBind sys (Init sys u w).world (Init sys u w).obj.socket_
                (Init sys u w).obj.init_addr_).2
              (Init sys u w).obj.socket_ true
              (GetConf { (Init sys u w).obj with mode_ := WorkMode.kServer }
                UdpConfig.kRecvTimeOut (1000 * 100))).2
            (Init sys u w).obj.socket_ false
            (GetConf { (Init sys u w).obj with mode_ := WorkMode.kServer }
              UdpConfig.kSendTimeOut (1000 * 3000))).2 } := by
  revert h
  unfold Bind
  simp only []
  split
  · intro h; cases h
  · split
    · intro h; cases h
    · intro _; rfl

/-- Shape of a `Conn` that returns normally. -/
theorem Conn_ok (sys : Sys) (u : Udp) (w : World) (h : (Conn sys u w).exn = none) :
    Conn sys u w =
      { exn := none,
        obj := { (Init sys u w).obj with mode_ := WorkMode.kClient },
        world :=
          (UdpSetTimeout sys
            (UdpSetTimeout sys
              (UdpConn sys (Init sys u w).world (Init sys u w).obj.socket_
                (Init sys u w).obj.init_addr_).2
              (Init sys u w).obj.socket_ true
              (GetConf { (Init sys u w).obj with mode_ := WorkMode.kClient }
                UdpConfig.kRecvTimeOut (1000 * 3000))).2
            (Init sys u w).obj.socket_ false
            (GetConf { (Init sys u w).obj with mode_ := WorkMode.kClient }
              UdpConfig.kSendTimeOut (1000 * 3000))).2 } := by
  revert h
  unfold Conn
  simp only []
  split
  · intro h; cases h
  · split
    · intro h; cases h
    · intro _; rfl

/-- Trace of two `UdpSetTimeout` calls, receive then send, on the same handle. -/
theorem UdpSetTimeout_twice_trace (sys : Sys) (w : World) (s : SocketHandle) (a b : Int) :
    (UdpSetTimeout sys (UdpSetTimeout sys w s true a).2 s false b).2.trace =
      w.trace ++
        [Call.setsockopt s.socket SOL_SOCKET SO_RCVTIMEO { tv_sec := 0, tv_usec := a }
           (sys.setsockopt w s.socket SOL_SOCKET SO_RCVTIMEO { tv_sec := 0, tv_usec := a }),
         Call.setsockopt s.socket SOL_SOCKET SO_SNDTIMEO { tv_sec := 0, tv_usec := b }
           (sys.setsockopt (UdpSetTimeout sys w s true a).2 s.socket SOL_SOCKET SO_SNDTIMEO
             { tv_sec := 0, tv_usec := b })] := by
  simp [UdpSetTimeout]

/-- A receive-timeout call followed by a send-timeout call: the receive timeout in force
is the new one when the kernel accepted it and the earlier one when it did not. -/
theorem timeoutIn_rcv_then_snd (pre : List Call) (fd : SocketType) (t t2 : timeval)
    (r1 r2 : Int) :
    timeoutIn
        (pre ++ [Call.setsockopt fd SOL_SOCKET SO_RCVTIMEO t r1,
                 Call.setsockopt fd SOL_SOCKET SO_SNDTIMEO t2 r2]) fd SO_RCVTIMEO
      = if r1 = 0 then some t else timeoutIn pre fd SO_RCVTIMEO := by
  simp [timeoutIn, List.foldl_append, timeoutStep, SO_RCVTIMEO, SO_SNDTIMEO]


/-! ## Default receive timeouts -/

/-- C8, as stated, fails: after a successful `Bind` on a server whose receive timeout was
never configured, `GetConf(kRecvTimeOut)` is the default argument 0, not 100000. -/
theorem GetConf_after_Bind_is_not_100000 :
    sampleEndpoint.conf_.getD UdpConfig.kRecvTimeOut.toNat 0 = 0 ∧
    boundServer.exn = none ∧
    boundServer.obj.mode_ = WorkMode.kServer ∧
    GetConf boundServer.obj UdpConfig.kRecvTimeOut = 0 ∧
    ¬ (GetConf boundServer.obj UdpConfig.kRecvTimeOut = 100000) := by
  decide

/-- C8, amended: when the receive timeout was never configured, `GetConf(kRecvTimeOut, d)`
returns the default `d` of the caller after `Bind` and after `Conn`, whether or not the
call returned normally; and a `Bind` that returns normally is in server mode and has ended
with `setsockopt(SO_RCVTIMEO)` on its socket with `timeval{0, 100000}` followed by
`setsockopt(SO_SNDTIMEO)`, so that the receive timeout in force on the socket is
`timeval{0, 100000}` when the kernel accepted the call and what it was before when it did
not. -/
theorem recv_timeout_defaults (sys : Sys) (u : Udp) (w : World)
    (hconf : u.conf_.getD UdpConfig.kRecvTimeOut.toNat 0 = 0) :
    (∀ d, GetConf (Bind sys u w).obj UdpConfig.kRecvTimeOut d = d) ∧
    (∀ d, GetConf (Conn sys u w).obj UdpConfig.kRecvTimeOut d = d) ∧
    ((Bind sys u w).exn = none →
      (Bind sys u w).obj.mode_ = WorkMode.kServer ∧
      ∃ pre r1 s r2,
        (Bind sys u w).world.trace = pre ++
          [Call.setsockopt (Bind sys u w).obj.socket_.socket SOL_SOCKET SO_RCVTIMEO
             { tv_sec := 0, tv_usec := 100000 } r1,
           Call.setsockopt (Bind sys u w).obj.socket_.socket SOL_SOCKET SO_SNDTIMEO
             { tv_sec := 0, tv_usec := s } r2] ∧
        (Bind sys u w).world.timeout (Bind sys u w).obj.socket_.socket SO_RCVTIMEO
          = if r1 = 0 then some { tv_sec := 0, tv_usec := 100000 }
            else timeoutIn pre (Bind sys u w).obj.socket_.socket SO_RCVTIMEO) := by
  have hbc : (Bind sys u w).obj.conf_.getD UdpConfig.kRecvTimeOut.toNat 0 = 0 := by
    rw [Bind_conf]; exact hconf
  have hcc : (Conn sys u w).obj.conf_.getD UdpConfig.kRecvTimeOut.toNat 0 = 0 := by
    rw [Conn_conf]; exact hconf
  have hic : (Init sys u w).obj.conf_.getD UdpConfig.kRecvTimeOut.toNat 0 = 0 := by
    rw [Init_conf]; exact hconf
  have hgb : GetConf { (Init sys u w).obj with mode_ := WorkMode.kServer }
      UdpConfig.kRecvTimeOut (1000 * 100) = 100000 :=
    GetConf_of_unset _ _ _ hic
  refine ⟨fun d => GetConf_of_unset _ _ d hbc, fun d => GetConf_of_unset _ _ d hcc, ?_⟩
  intro hb
  have hB := Bind_ok sys u w hb
  have hsock : (Bind sys u w).obj.socket_.socket = (Init sys u w).obj.socket_.socket := by
    rw [hB]
  have hmode : (Bind sys u w).obj.mode_ = WorkMode.kServer := by
    rw [hB]
  have htr := UdpSetTimeout_twice_trace sys
    (UdpBind sys (Init sys u w).world (Init sys u w).obj.socket_ (Init sys u w).obj.init_addr_).2
    (Init sys u w).obj.socket_
    (GetConf { (Init sys u w).obj with mode_ := WorkMode.kServer }
      UdpConfig.kRecvTimeOut (1000 * 100))
    (GetConf { (Init sys u w).obj with mode_ := WorkMode.kServer }
      UdpConfig.kSendTimeOut (1000 * 3000))
  have hw : (Bind sys u w).world.trace = _ := (congrArg (fun r => r.world.trace) hB).trans htr
  rw [hgb] at hw
  rw [hsock]
  refine ⟨hmode, _, _, _, _, hw, ?_⟩
  unfold World.timeout
  rw [hw]
  exact timeoutIn_rcv_then_snd _ _ _ _ _ _

theorem recv_timeout_defaults_witness :
    sampleEndpoint.conf_.getD UdpConfig.kRecvTimeOut.toNat 0 = 0 ∧
    (Bind simSys sampleEndpoint {}).exn = none ∧
    GetConf (Bind simSys sampleEndpoint {}).obj UdpConfig.kRecvTimeOut 7 = 7 ∧
    GetConf (Conn simSys sampleEndpoint {}).obj UdpConfig.kRecvTimeOut 7 = 7 ∧
    (Bind simSys sampleEndpoint {}).obj.mode_ = WorkMode.kServer ∧
    (Bind simSys sampleEndpoint {}).world.timeout 3 SO_RCVTIMEO
      = some { tv_sec := 0, tv_usec := 100000 } :=
  ⟨by decide, by decide,
   (recv_timeout_defaults simSys sampleEndpoint {} (by decide)).1 7,
   (recv_timeout_defaults simSys sampleEndpoint {} (by decide)).2.1 7,
   ((recv_timeout_defaults simSys sampleEndpoint {} (by decide)).2.2 (by decide)).1,
   by decide⟩

/-- On an operating system that follows Linux, the default timeouts of 3000000
microseconds are refused, since they are passed in `tv_usec`: after `Conn` no receive
timeout is in force, and after `Bind` no send timeout is in force. -/
theorem default_timeouts_refused :
    connectedClient.exn = none ∧
    connectedClient.world.trace.drop 3 =
      [Call.setsockopt 3 SOL_SOCKET SO_RCVTIMEO { tv_sec := 0, tv_usec := 3000000 } (-1),
       Call.setsockopt 3 SOL_SOCKET SO_SNDTIMEO { tv_sec := 0, tv_usec := 3000000 } (-1)] ∧
    connectedClient.world.timeout 3 SO_RCVTIMEO = none ∧
    connectedClient.world.timeout 3 SO_SNDTIMEO = none ∧
    boundServer.world.timeout 3 SO_SNDTIMEO = none := by
  decide


/-! ## Cloning -/

theorem load_cons_ne (b : Block) (heap : List Block) (tr : List Call) (q : Nat)
    (h : b.addr ≠ q) :
    World.load { trace := tr, heap := b :: heap } q = World.load { trace := tr, heap := heap } q := by
  have hb : (b.addr == q) = false := by simpa using h
  simp [World.load, List.find?, hb]

theorem load_cons_eq (b : Block) (heap : List Block) (tr : List Call) :
    World.load { trace := tr, heap := b :: heap } b.addr = some b := by
  simp [World.load, List.find?]

theorem find_store_ne (heap : List Block) (p q : Nat) (bs : List Nat) (h : p ≠ q) :
    (heap.map (fun b =>
        if b.addr == p then { b with data := bs ++ b.data.drop bs.length } else b)).find?
      (fun b => b.addr == q) = heap.find? (fun b => b.addr == q) := by
  induction heap with
  | nil => rfl
  | cons b rest ih =>
    simp only [List.map_cons, List.find?_cons]
    by_cases hp : b.addr = p
    · have hp' : (b.addr == p) = true := by simpa using hp
      have hq : (b.addr == q) = false := by
        have : b.addr ≠ q := by rw [hp]; exact h
        simpa using this
      simp only [hp', if_true, hq]
      exact ih
    · have hp' : (b.addr == p) = false := by simpa using hp
      simp only [hp', Bool.false_eq_true, if_false]
      cases hq : (b.addr == q)
      · exact ih
      · rfl

/-- A store into the block at `p` leaves the block at any other address as it was. -/
theorem load_store_ne (w : World) (p q : Nat) (bs : List Nat) (h : p ≠ q) :
    (w.store p bs).load q = w.load q := by
  unfold World.store World.load
  exact find_store_ne w.heap p q bs h

/-- The payload that `Recv` stores goes to the block at `buf_` only. -/
theorem Recv_load_ne (sys : Sys) (u : Udp) (w : World) (q : Nat) (h : u.buf_ ≠ q) :
    (Recv sys u w).2.2.load q = w.load q := by
  unfold Recv
  simp only []
  split
  · rfl
  · rw [load_store_ne _ _ _ _ h]
    rfl

theorem le_maxAddr (l : List Nat) (x : Nat) (h : x ∈ l) : x ≤ maxAddr l := by
  induction l with
  | nil => cases h
  | cons y ys ih =>
    unfold maxAddr
    rcases List.mem_cons.mp h with rfl | h'
    · exact le_max_left _ _
    · exact le_trans (ih h') (le_max_right _ _)

/-- The allocator of `simSys` returns a non-null address that is not live. -/
theorem simSys_alloc_fresh (w : World) (n : Nat) :
    simSys.alloc w n ≠ nullptr ∧ simSys.alloc w n ∉ w.live := by
  constructor
  · exact Nat.succ_ne_zero _
  · intro h
    have := le_maxAddr _ _ h
    simp only [simSys] at this
    omega

/-- Shape of `Clone` on an initialised endpoint with a non-negative buffer length. -/
theorem Clone_ok (sys : Sys) (e : Udp) (w : World)
    (hinit : e.inited_ = true) (hlen : 0 ≤ e.buf_len_) :
    Clone sys e w =
      { exn := none,
        obj := { e with buf_ := sys.alloc w e.buf_len_.toNat, recv_addr_ := SocketAddr.zero },
        world :=
          { trace := w.trace ++ [Call.opNew e.buf_len_.toNat (sys.alloc w e.buf_len_.toNat)],
            heap := { addr := sys.alloc w e.buf_len_.toNat, size := e.buf_len_.toNat, data := [] }
              :: w.heap } } := by
  have hn : ¬ e.buf_len_ < 0 := by omega
  simp [Clone, CloneTo, opNew, hinit, hn]

theorem opNew_some (sys : Sys) (w : World) (n : Int) (p : Nat) (w2 : World)
    (h : opNew sys w n = some (p, w2)) : 0 ≤ n ∧ p ∈ w2.live := by
  unfold opNew at h
  split at h
  · cases h
  · rename_i hn
    simp only [Option.some.injEq, Prod.mk.injEq] at h
    obtain ⟨rfl, rfl⟩ := h
    exact ⟨by omega, by simp [World.live]⟩

/-- An `Init` that returns normally leaves the flag set and a live buffer of non-negative
length. -/
theorem Init_ok_owns_buffer (sys : Sys) (u : Udp) (w : World)
    (h : (Init sys u w).exn = none) :
    (Init sys u w).obj.inited_ = true ∧
    0 ≤ (Init sys u w).obj.buf_len_ ∧
    (Init sys u w).obj.buf_ ∈ (Init sys u w).world.live := by
  revert h
  unfold Init
  split
  · intro h; cases h
  · simp only []
    split
    · intro h; cases h
    · rename_i p w2 heq
      intro _
      exact ⟨rfl, (opNew_some _ _ _ _ _ heq).1, (opNew_some _ _ _ _ _ heq).2⟩

/-- The state of every endpoint whose `Init` returned normally inside `Bind`, also when
`bind` itself failed afterwards: flag set, live buffer of non-negative length. -/
theorem Bind_owns_buffer (sys : Sys) (u : Udp) (w : World)
    (h : (Init sys u w).exn = none) :
    (Bind sys u w).obj.inited_ = true ∧
    0 ≤ (Bind sys u w).obj.buf_len_ ∧
    (Bind sys u w).obj.buf_ ∈ (Bind sys u w).world.live := by
  have hI := Init_ok_owns_buffer sys u w h
  unfold Bind
  simp only [h, UdpBind, UdpSetTimeout]
  split
  · exact hI
  · exact hI

/-- The state of every endpoint whose `Init` returned normally inside `Conn`, also when
`connect` itself failed afterwards: flag set, live buffer of non-negative length. -/
theorem Conn_owns_buffer (sys : Sys) (u : Udp) (w : World)
    (h : (Init sys u w).exn = none) :
    (Conn sys u w).obj.inited_ = true ∧
    0 ≤ (Conn sys u w).obj.buf_len_ ∧
    (Conn sys u w).obj.buf_ ∈ (Conn sys u w).world.live := by
  have hI := Init_ok_owns_buffer sys u w h
  unfold Conn
  simp only [h, UdpConn, UdpSetTimeout]
  split
  · exact hI
  · exact hI

/-- C10: cloning an initialised endpoint that owns a live buffer returns normally; the
buffer of the clone is a new block, non-null, distinct from the buffer of `e` and from
every block live before, of the same capacity; the configuration array is equal; the
block of `e` is as it was; and a store or a `Recv` into the buffer of one endpoint leaves
the block of the other as it was. -/
theorem Clone_independent (sys : Sys) (e : Udp) (w : World)
    (hfresh : ∀ w n, sys.alloc w n ≠ nullptr ∧ sys.alloc w n ∉ w.live)
    (hinit : e.inited_ = true) (hlen : 0 ≤ e.buf_len_) (hlive : e.buf_ ∈ w.live) :
    (Clone sys e w).exn = none ∧
    (Clone sys e w).obj.buf_ ≠ nullptr ∧
    (Clone sys e w).obj.buf_ ≠ e.buf_ ∧
    (Clone sys e w).obj.buf_ ∉ w.live ∧
    (Clone sys e w).world.load (Clone sys e w).obj.buf_
      = some { addr := (Clone sys e w).obj.buf_, size := e.buf_len_.toNat, data := [] } ∧
    (Clone sys e w).obj.buf_len_ = e.buf_len_ ∧
    (Clone sys e w).obj.conf_ = e.conf_ ∧
    (Clone sys e w).obj.inited_ = true ∧
    (Clone sys e w).world.load e.buf_ = w.load e.buf_ ∧
    (∀ (w2 : World) (bs : List Nat),
      (w2.store (Clone sys e w).obj.buf_ bs).load e.buf_ = w2.load e.buf_) ∧
    (∀ (w2 : World) (bs : List Nat),
      (w2.store e.buf_ bs).load (Clone sys e w).obj.buf_ = w2.load (Clone sys e w).obj.buf_) ∧
    (∀ (sys2 : Sys) (w2 : World),
      (Recv sys2 (Clone sys e w).obj w2).2.2.load e.buf_ = w2.load e.buf_) ∧
    (∀ (sys2 : Sys) (w2 : World),
      (Recv sys2 e w2).2.2.load (Clone sys e w).obj.buf_ = w2.load (Clone sys e w).obj.buf_) := by
  have hf := hfresh w e.buf_len_.toNat
  have hne : sys.alloc w e.buf_len_.toNat ≠ e.buf_ := by
    intro h
    exact hf.2 (h ▸ hlive)
  rw [Clone_ok sys e w hinit hlen]
  refine ⟨rfl, hf.1, hne, hf.2, ?_, rfl, rfl, hinit, ?_, ?_, ?_, ?_, ?_⟩
  · exact load_cons_eq _ _ _
  · exact load_cons_ne _ _ _ _ hne
  · intro w2 bs
    exact load_store_ne w2 _ _ bs hne
  · intro w2 bs
    exact load_store_ne w2 _ _ bs (Ne.symm hne)
  · intro sys2 w2
    exact Recv_load_ne sys2 _ w2 _ hne
  · intro sys2 w2
    exact Recv_load_ne sys2 e w2 _ (Ne.symm hne)

theorem Clone_independent_witness :
    boundServer.obj.inited_ = true ∧
    0 ≤ boundServer.obj.buf_len_ ∧
    boundServer.obj.buf_ ∈ boundServer.world.live ∧
    (Clone simSys boundServer.obj boundServer.world).exn = none ∧
    (Clone simSys boundServer.obj boundServer.world).obj.buf_ ≠ nullptr ∧
    (Clone simSys boundServer.obj boundServer.world).obj.buf_ ≠ boundServer.obj.buf_ ∧
    ((Recv pingSys clonedServer.obj clonedServer.world).2.2.load clonedServer.obj.buf_
      = some { addr := 2, size := 65535, data := [112, 105, 110, 103] }) ∧
    ((Recv pingSys (Clone simSys boundServer.obj boundServer.world).obj clonedServer.world).2.2.load
        boundServer.obj.buf_
      = clonedServer.world.load boundServer.obj.buf_) :=
  ⟨by decide, by decide, by decide,
   (Clone_independent simSys boundServer.obj boundServer.world simSys_alloc_fresh
      (by decide) (by decide) (by decide)).1,
   (Clone_independent simSys boundServer.obj boundServer.world simSys_alloc_fresh
      (by decide) (by decide) (by decide)).2.1,
   (Clone_independent simSys boundServer.obj boundServer.world simSys_alloc_fresh
      (by decide) (by decide) (by decide)).2.2.1,
   by decide,
   (Clone_independent simSys boundServer.obj boundServer.world simSys_alloc_fresh
      (by decide) (by decide) (by decide)).2.2.2.2.2.2.2.2.2.2.2.1 pingSys clonedServer.world⟩


/-! ## Runs on which the code departs from its documentation -/

/-- C2, evaluated: a bound server (descriptor 3, buffer 1) is cloned (buffer 2) and both
objects are destroyed, in either order; `close(3)` is issued twice, while each buffer is
released once. -/
theorem Clone_then_destroy_closes_twice :
    boundServer.exn = none ∧
    boundServer.obj.socket_.socket = 3 ∧
    clonedServer.exn = none ∧
    clonedServer.obj.socket_.socket = 3 ∧
    clonedServer.world.closes 3 = 0 ∧
    (dtor clonedServer.obj (dtor boundServer.obj clonedServer.world)).closes 3 = 2 ∧
    (dtor boundServer.obj (dtor clonedServer.obj clonedServer.world)).closes 3 = 2 ∧
    (dtor clonedServer.obj (dtor boundServer.obj clonedServer.world)).frees boundServer.obj.buf_ = 1 ∧
    (dtor clonedServer.obj (dtor boundServer.obj clonedServer.world)).frees clonedServer.obj.buf_ = 1 := by
  decide

/-- C3, evaluated: a default-constructed endpoint is not initialised and holds descriptor
0, which is not the sentinel, so `Close` on it issues `close(0)`; an endpoint that was
moved from is not initialised and still holds descriptor 3 of the bound server. -/
theorem uninitialised_handle_is_not_sentinel :
    ({} : Udp).inited_ = false ∧
    ({} : Udp).socket_.socket = 0 ∧
    ({} : Udp).socket_.socket ≠ INVALID_SOCKET ∧
    (Close {} {}).2.trace = [Call.close 0] ∧
    (moveCtor boundServer.obj).2.inited_ = false ∧
    (moveCtor boundServer.obj).2.socket_.socket = 3 ∧
    (moveCtor boundServer.obj).2.socket_.socket ≠ INVALID_SOCKET := by
  decide

/-- C6, evaluated: after a successful `Bind`, `Config(kRecvTimeOut, 5)` changes what
`GetConf(kRecvTimeOut, 0)` returns from 0 to 5. -/
theorem Config_after_Bind_changes_conf :
    boundServer.exn = none ∧
    boundServer.obj.inited_ = true ∧
    GetConf boundServer.obj UdpConfig.kRecvTimeOut 0 = 0 ∧
    GetConf (Config boundServer.obj UdpConfig.kRecvTimeOut 5) UdpConfig.kRecvTimeOut 0 = 5 := by
  decide

/-- C9, evaluated: copy-assigning a default-constructed endpoint onto a bound server
clears the initialised flag of the destination and leaves its buffer pointer at the
block the server allocated. -/
theorem copyAssign_from_uninitialised_keeps_buffer :
    boundServer.obj.inited_ = true ∧
    boundServer.obj.buf_ = 1 ∧
    (copyAssign simSys boundServer.obj {} boundServer.world).exn = none ∧
    (copyAssign simSys boundServer.obj {} boundServer.world).obj.inited_ = false ∧
    (copyAssign simSys boundServer.obj {} boundServer.world).obj.buf_ = 1 ∧
    (copyAssign simSys boundServer.obj {} boundServer.world).obj.buf_ ≠ nullptr := by
  decide

/-- The double `close` after a clone does not depend on the operating system: for every
initialised endpoint with a non-negative buffer length whose handle is not the sentinel,
destroying the endpoint and its clone adds two `close` calls on its descriptor. -/
theorem Clone_dtor_closes_general (sys : Sys) (e : Udp) (w : World)
    (hinit : e.inited_ = true) (hlen : 0 ≤ e.buf_len_)
    (hsock : e.socket_.socket ≠ INVALID_SOCKET) :
    (dtor (Clone sys e w).obj (dtor e (Clone sys e w).world)).closes e.socket_.socket
      = w.closes e.socket_.socket + 2 := by
  rw [Clone_ok sys e w hinit hlen]
  simp only [dtor, hinit, Close, hsock, opDelete, World.closes]
  by_cases h1 : e.buf_ = nullptr <;> by_cases h2 : sys.alloc w e.buf_len_.toNat = nullptr <;>
    simp [h1, h2, List.count_append, List.count_cons, List.count_nil]

/-- The stale buffer after a copy assignment does not depend on the operating system:
copy-assigning any endpoint that is not initialised clears the flag of the destination
and leaves its buffer pointer and the world as they were. -/
theorem copyAssign_from_uninitialised_general (sys : Sys) (b a : Udp) (w : World)
    (ha : a.inited_ = false) :
    (copyAssign sys b a w).exn = none ∧
    (copyAssign sys b a w).obj.inited_ = false ∧
    (copyAssign sys b a w).obj.buf_ = b.buf_ ∧
    (copyAssign sys b a w).obj.buf_len_ = b.buf_len_ ∧
    (copyAssign sys b a w).world = w := by
  simp [copyAssign, CloneTo, ha]

/-- The store of `Config` does not look at the initialised flag: whatever the state of the
endpoint, the configuration array afterwards holds the new value at the index of the
option. -/
theorem Config_stores (u : Udp) (k : UdpConfig) (v : Int) :
    (Config u k v).conf_ = u.conf_.set k.toNat v ∧ (Config u k v).inited_ = u.inited_ :=
  ⟨rfl, rfl⟩

end Udp
